import Mathlib

/-!
# SmartCollectAPI — spaCy job-queue pipeline: a shallow embedding

This development embeds the asynchronous job-processing pipeline of the
spaCy microservice (`micros/spaCy`): job submission (`app.py:submit_job`),
the broker-backed task queue and job store (`services/redis_service.py`),
the status endpoint (`app.py:get_job_status`), the admin clear-queue
endpoint (`app.py:clear_processing_queue`) and the worker
(`workers/redis_consumer.py:RedisConsumer._process_next_job`).

Modelling conventions:
* The Redis broker is a pair of association tables: one for list-valued
  keys (queues) and one for string-valued keys written with SETEX (the
  per-job status records; the TTL itself is abstracted — expiry is
  modelled as absence of the key).
* Redis keys used by the service have exactly three shapes, which are
  pairwise distinct strings for every job id: `"nlp:processing:queue"`
  (config.NLP_QUEUE), `"nlp:results:queue"` (config.NLP_RESULTS_QUEUE)
  and `"nlp:job:" ++ jobId` (the per-job status key; its fixed prefix
  differs from both queue names at the fifth character). They are
  modelled by the inductive `RKey`, whose constructor disjointness
  mirrors that string disjointness.
* JSON values are modelled by `Json`; an object is a chain of
  `Json.field` constructors ending in `Json.objNil` (Python dicts built
  by this code never carry duplicate keys). `json.dumps`/`json.loads`
  round-tripping is the identity on this representation.
* Serialized jobs on the work queue are carried as typed payloads
  (`RVal.job`); the worker's `ProcessingJob(**job_data)` pydantic
  construction is `RVal.toJob`, which fails on a non-job payload.
* `datetime.utcnow()` timestamps are threaded as opaque string
  parameters; `uuid.uuid4()` job ids are parameters of the submit
  operation.
* Exceptions raised by the underlying redis client are injected through
  explicit `Bool` fault flags on each service-layer operation; a raised
  exception performs no mutation.
* `progress` is a float in the source but only ever takes the exact
  values `0.0` and `100.0`, and no arithmetic is performed on it; it is
  modelled as a natural number.
-/

/-- JSON-like values. Objects are chains of `field` ending in `objNil`. -/
inductive Json where
  | null : Json
  | str : String → Json
  | num : Nat → Json
  | objNil : Json
  | field : String → Json → Json → Json
deriving DecidableEq, Repr

namespace Json

/-- `d.get(k)` on a Python dict: first field with key `k`, if any. -/
def getField : Json → String → Option Json
  | .field k v rest, key => if k = key then some v else rest.getField key
  | _, _ => none

end Json

/-- `models/job.py:JobStatus` — the job lifecycle enum. -/
inductive JobStatus where
  | pending
  | processing
  | completed
  | failed
  | cancelled
deriving DecidableEq, Repr

/-- The `.value` string of each `JobStatus` enum member. -/
def JobStatus.value : JobStatus → String
  | .pending => "pending"
  | .processing => "processing"
  | .completed => "completed"
  | .failed => "failed"
  | .cancelled => "cancelled"

/-- `models/document.py:Document` (the fields the pipeline reads: `id`
and `content`; `metadata`/`created_at` are never consulted by the
job-queue code and are omitted). -/
structure Document where
  id : String
  content : String
deriving DecidableEq, Repr

/-- `models/job.py:ProcessingJob`. The pipeline only ever reads the
`"document"` key of the `metadata` dict, modelled as
`metadata_document`; datetime fields are opaque strings. -/
structure ProcessingJob where
  id : String
  document_id : String
  status : JobStatus
  error_message : Option String
  progress : Nat
  metadata_document : Option Document
deriving DecidableEq, Repr

/-- `ProcessingJob.start_processing`. -/
def ProcessingJob.start_processing (j : ProcessingJob) : ProcessingJob :=
  { j with status := .processing }

/-- `ProcessingJob.complete_processing`. -/
def ProcessingJob.complete_processing (j : ProcessingJob) : ProcessingJob :=
  { j with status := .completed, progress := 100 }

/-- `ProcessingJob.fail_processing`. -/
def ProcessingJob.fail_processing (j : ProcessingJob) (error : String) : ProcessingJob :=
  { j with status := .failed, error_message := some error }

/-- The Redis keys the service touches. `nlpQueue` is the string
`"nlp:processing:queue"` (config.NLP_QUEUE), `resultsQueue` is
`"nlp:results:queue"` (config.NLP_RESULTS_QUEUE), and `jobKey i` is
`"nlp:job:" ++ i` (`redis_service.py` line 74/97). These strings are
pairwise distinct for every job id, which the constructor disjointness
of this inductive reflects. -/
inductive RKey where
  | nlpQueue : RKey
  | resultsQueue : RKey
  | jobKey : String → RKey
deriving DecidableEq, Repr

/-- A value stored on a Redis list: a serialized `ProcessingJob` (work
queue entries) or a serialized JSON message (results channel entries). -/
inductive RVal where
  | job : ProcessingJob → RVal
  | msg : Json → RVal
deriving DecidableEq, Repr

/-- `ProcessingJob(**job_data)` — pydantic reconstruction of a popped
queue entry; fails (raises ValidationError) on a non-job payload. -/
def RVal.toJob : RVal → Except String ProcessingJob
  | .job j => .ok j
  | .msg _ => .error "validation error: not a ProcessingJob"

/-- Association-list lookup. -/
def alistGet {α : Type} [DecidableEq α] {β : Type} :
    List (α × β) → α → Option β
  | [], _ => none
  | (k, v) :: rest, key => if k = key then some v else alistGet rest key

/-- Association-list removal of a key. -/
def alistDel {α : Type} [DecidableEq α] {β : Type}
    (l : List (α × β)) (key : α) : List (α × β) :=
  l.filter (fun p => p.1 ≠ key)

/-- Association-list update: bind `key` to `v`, dropping any old binding. -/
def alistSet {α : Type} [DecidableEq α] {β : Type}
    (l : List (α × β)) (key : α) (v : β) : List (α × β) :=
  (key, v) :: alistDel l key

/-- The broker state: list-valued keys (the two queues; the head of a
stored list is the LEFT end of the Redis list) and string-valued keys
written with SETEX (per-job status records; TTL abstracted). -/
structure RedisState where
  lists : List (RKey × List RVal)
  kv : List (RKey × Json)
deriving DecidableEq, Repr

/-- The empty broker. -/
def RedisState.empty : RedisState := ⟨[], []⟩

namespace RedisState

/-- The Redis list stored at `key` (empty when the key is absent). -/
def listAt (st : RedisState) (key : RKey) : List RVal :=
  (alistGet st.lists key).getD []

/-- `LPUSH key v`: prepend at the left end; returns the new state and
the new length of the list (redis-py returns that length). -/
def lpush (st : RedisState) (key : RKey) (v : RVal) : RedisState × Nat :=
  let newList := v :: st.listAt key
  ({ st with lists := alistSet st.lists key newList }, newList.length)

/-- `BRPOP key timeout`: remove and return the element at the RIGHT end,
or `none` when the list is empty (modelling expiry of the blocking
timeout). The timeout parameter is carried but has no semantic content
in this untimed model. -/
def brpop (st : RedisState) (key : RKey) (_timeout : Nat) :
    Option RVal × RedisState :=
  match (st.listAt key).getLast? with
  | none => (none, st)
  | some v =>
      (some v,
       { st with lists := alistSet st.lists key (st.listAt key).dropLast })

/-- `SETEX key ttl v` (TTL abstracted away). -/
def setex (st : RedisState) (key : RKey) (v : Json) : RedisState :=
  { st with kv := alistSet st.kv key v }

/-- `GET key`. -/
def get (st : RedisState) (key : RKey) : Option Json :=
  alistGet st.kv key

/-- `DEL key`: removes the key whichever table holds it. -/
def del (st : RedisState) (key : RKey) : RedisState :=
  { lists := alistDel st.lists key, kv := alistDel st.kv key }

/-- `LLEN key`. -/
def llen (st : RedisState) (key : RKey) : Nat :=
  (st.listAt key).length

end RedisState

/-! ## Configuration (`config.py`) -/

namespace Config

/-- `config.NLP_QUEUE = "nlp:processing:queue"`. -/
def NLP_QUEUE : RKey := .nlpQueue

/-- `config.NLP_RESULTS_QUEUE = "nlp:results:queue"`. -/
def NLP_RESULTS_QUEUE : RKey := .resultsQueue

/-- `config.SERVICE_VERSION`. -/
def SERVICE_VERSION : String := "1.0.0"

/-- `config.SPACY_MODEL` (its default value; env-dependent in the source). -/
def SPACY_MODEL : String := "en_core_web_sm"

end Config

/-! ## Service layer (`services/redis_service.py:RedisService`)

Each operation takes a `Bool` fault flag injecting an exception raised by
the underlying redis client call; a raised exception performs no
mutation, and each method's own `try/except` determines what the caller
sees. -/

/-- The `job_data` dict built by `RedisService.update_job_status`:
`{"status": .., "progress": .., "updated_at": None}` with an `"error"`
key appended only when `error` is truthy (non-`None` and non-empty). -/
def statusRecord (status : String) (progress : Nat) (error : Option String) : Json :=
  .field "status" (.str status)
    (.field "progress" (.num progress)
      (.field "updated_at" .null
        (match error with
         | some e => if e = "" then .objNil else .field "error" (.str e) .objNil
         | none => .objNil)))

namespace RedisService

/-- The `message` dict built by `RedisService.publish_job_result` (lines
37–41): `{"job_id": .., "result": result, "timestamp":
result.get("processed_at")}`. -/
def publishedMessage (job_id : String) (result : Json) : Json :=
  .field "job_id" (.str job_id)
    (.field "result" result
      (.field "timestamp" ((result.getField "processed_at").getD .null) .objNil))

/-- `RedisService.publish_job_result`: wraps the caller's `result` in
`publishedMessage`, LPUSHes it onto the results queue and returns
`true`; any exception is caught and surfaced as `false`. -/
def publish_job_result (fail : Bool) (st : RedisState) (job_id : String)
    (result : Json) : RedisState × Bool :=
  if fail then (st, false)
  else ((st.lpush Config.NLP_RESULTS_QUEUE (.msg (publishedMessage job_id result))).1, true)

/-- `RedisService.get_processing_job`: `BRPOP` on the work queue with a
30-second timeout; returns `none` both on timeout (empty queue) and on a
caught exception. -/
def get_processing_job (fail : Bool) (st : RedisState) :
    Option RVal × RedisState :=
  if fail then (none, st)
  else st.brpop Config.NLP_QUEUE 30

/-- `RedisService.update_job_status`: `SETEX` of `statusRecord` under
`"nlp:job:" ++ job_id` with a 1-hour TTL; any exception is caught and
swallowed (the method returns normally with no mutation). -/
def update_job_status (fail : Bool) (st : RedisState) (job_id status : String)
    (progress : Nat) (error : Option String) : RedisState :=
  if fail then st
  else st.setex (.jobKey job_id) (statusRecord status progress error)

/-- `RedisService.get_job_status`: `GET "nlp:job:" ++ job_id`; returns
`none` when the key is absent and also when the client raised (the
exception is caught and swallowed). -/
def get_job_status (fail : Bool) (st : RedisState) (job_id : String) :
    Option Json :=
  if fail then none
  else st.get (.jobKey job_id)

/-- `RedisService.get_queue_length`: `LLEN`; `0` on a caught exception. -/
def get_queue_length (fail : Bool) (st : RedisState) (queue_name : RKey) : Nat :=
  if fail then 0 else st.llen queue_name

/-- `RedisService.clear_queue`: `DEL queue_name`, returning `true`;
`false` on a caught exception (no mutation). -/
def clear_queue (fail : Bool) (st : RedisState) (queue_name : RKey) :
    RedisState × Bool :=
  if fail then (st, false) else (st.del queue_name, true)

end RedisService

/-! ## HTTP handlers (`app.py`) -/

/-- A FastAPI handler outcome: a JSON body or an `HTTPException`. -/
inductive ApiResponse where
  | ok : Json → ApiResponse
  | httpError : Nat → String → ApiResponse
deriving DecidableEq, Repr

/-- Python truthiness of a JSON value (`if not job_status:`). -/
def jsonTruthy : Json → Bool
  | .null => false
  | .str s => s != ""
  | .num n => n != 0
  | .objNil => false
  | .field _ _ _ => true

namespace App

/-- `app.py:submit_job` (POST /api/v1/jobs/submit). `job_id` stands for
the generated `uuid.uuid4()` and `now` for `datetime.utcnow()`. Builds a
PENDING `ProcessingJob` with the document embedded under the
`"document"` metadata key, LPUSHes it onto the work queue, then writes
the PENDING status record (whose own failure is swallowed inside
`update_job_status`). A push failure is caught by the handler's
`try/except` and surfaces as a 500. -/
def submit_job (pushFail updFail : Bool) (job_id now : String)
    (document : Document) (st : RedisState) : ApiResponse × RedisState :=
  let job : ProcessingJob :=
    { id := job_id, document_id := document.id, status := .pending,
      error_message := none, progress := 0,
      metadata_document := some document }
  if pushFail then (.httpError 500 "Job submission failed", st)
  else
    let pushed := st.lpush Config.NLP_QUEUE (.job job)
    let st2 := RedisService.update_job_status updFail pushed.1 job_id
      JobStatus.pending.value 0 none
    (.ok (.field "job_id" (.str job_id)
           (.field "document_id" (.str document.id)
             (.field "status" (.str JobStatus.pending.value)
               (.field "submitted_at" (.str now)
                 (.field "queue_position" (.num pushed.2) .objNil))))),
     st2)

/-- `app.py:get_job_status` (GET /api/v1/jobs/{job_id}). Performs only a
broker GET; 404 when the lookup yields a falsy value (absent key,
expired TTL, or a swallowed broker error), otherwise returns
`{"job_id": job_id, **job_status}` (stored records never carry a
`"job_id"` key, so prepending the field is exact). -/
def get_job_status (fail : Bool) (st : RedisState) (job_id : String) :
    ApiResponse :=
  match RedisService.get_job_status fail st job_id with
  | none => .httpError 404 "Job not found"
  | some r =>
      if jsonTruthy r then .ok (.field "job_id" (.str job_id) r)
      else .httpError 404 "Job not found"

/-- `app.py:clear_processing_queue` (POST /api/v1/admin/clear-queue). -/
def clear_processing_queue (fail : Bool) (st : RedisState) :
    ApiResponse × RedisState :=
  let cleared := RedisService.clear_queue fail st Config.NLP_QUEUE
  if cleared.2 then
    (.ok (.field "message" (.str "Processing queue cleared successfully") .objNil),
     cleared.1)
  else (.httpError 500 "Failed to clear queue", cleared.1)

end App

/-! ## Worker (`workers/redis_consumer.py:RedisConsumer`) -/

/-- The consumer's mutable state: its broker connection's view plus the
`running` flag and `processed_count` counter. -/
structure ConsumerState where
  redis : RedisState
  running : Bool
  processed_count : Nat
deriving DecidableEq, Repr

/-- Fault injection for the broker calls a single `_process_next_job`
iteration makes: `popFail` makes `BRPOP` raise (swallowed inside
`get_processing_job`), `updFail` makes `SETEX` raise (swallowed inside
`update_job_status`), `pubFail` makes the results `LPUSH` raise
(swallowed inside `publish_job_result`, which then returns `false`). -/
structure Faults where
  popFail : Bool
  updFail : Bool
  pubFail : Bool
deriving DecidableEq, Repr

/-- No injected broker faults. -/
def noFaults : Faults := ⟨false, false, false⟩

/-- The ProcessedDocument built on the success path (lines 77–83),
serialized by `processed_doc.dict()`. The analysis payload is whatever
the opaque Analyzer returned. -/
def processedDocumentJson (document : Document) (analysis : Json)
    (now : String) : Json :=
  .field "document"
      (.field "id" (.str document.id)
        (.field "content" (.str document.content) .objNil))
    (.field "analysis" analysis
      (.field "processed_at" (.str now)
        (.field "processing_version" (.str Config.SERVICE_VERSION)
          (.field "model_used" (.str Config.SPACY_MODEL) .objNil))))

/-- The success `result` dict the worker builds (lines 90–96):
`{job_id, document_id, processed_document, status: "completed",
processed_at}`. -/
def successEnvelope (job_id document_id : String) (processed_doc : Json)
    (now : String) : Json :=
  .field "job_id" (.str job_id)
    (.field "document_id" (.str document_id)
      (.field "processed_document" processed_doc
        (.field "status" (.str "completed")
          (.field "processed_at" (.str now) .objNil))))

/-- The failure `result` dict the worker builds (lines 115–121):
`{job_id, document_id, status: "failed", error, processed_at}`. -/
def failureEnvelope (job_id document_id error : String) (now : String) : Json :=
  .field "job_id" (.str job_id)
    (.field "document_id" (.str document_id)
      (.field "status" (.str "failed")
        (.field "error" (.str error)
          (.field "processed_at" (.str now) .objNil))))

/-- The worker's inner `except` handler (lines 106–123): mark the job
FAILED, persist the FAILED record with progress 0 and the error message,
and publish a failure result (whose success flag is ignored). -/
def workerFailJob (f : Faults) (now : String) (st : RedisState)
    (job : ProcessingJob) (error_msg : String) (c : ConsumerState) :
    ConsumerState :=
  let job1 := job.fail_processing error_msg
  let st1 := RedisService.update_job_status f.updFail st job1.id
    JobStatus.failed.value 0 (some error_msg)
  let published := RedisService.publish_job_result f.pubFail st1 job1.id
    (failureEnvelope job1.id job1.document_id error_msg now)
  { c with redis := published.1 }

/-- `RedisConsumer._process_next_job`. `analyze` is the opaque Analyzer
(`nlp_processor.process_document`): `.error e` models a raised
exception whose `str(e)` is `e`. The outermost `try/except` (lines
49/125) catches everything, so the function is total: no exception ever
escapes to the consumer loop. A popped payload that fails `ProcessingJob`
construction (line 57, outside the inner `try`) is dropped by that outer
handler. -/
def process_next_job (analyze : Document → Except String Json)
    (f : Faults) (now : String) (c : ConsumerState) : ConsumerState :=
  let popped := RedisService.get_processing_job f.popFail c.redis
  match popped.1 with
  | none => { c with redis := popped.2 }
  | some rval =>
    match rval.toJob with
    | .error _ => { c with redis := popped.2 }
    | .ok job =>
      let job1 := job.start_processing
      let st1 := RedisService.update_job_status f.updFail popped.2 job1.id
        JobStatus.processing.value 0 none
      match job1.metadata_document with
      | none =>
          workerFailJob f now st1 job1
            "Failed to process document: No document data in job" c
      | some document =>
        match analyze document with
        | .error e =>
            workerFailJob f now st1 job1 ("Failed to process document: " ++ e) c
        | .ok analysis =>
          let job2 := job1.complete_processing
          let st2 := RedisService.update_job_status f.updFail st1 job2.id
            JobStatus.completed.value 100 none
          let result := successEnvelope job2.id document.id
            (processedDocumentJson document analysis now) now
          let published := RedisService.publish_job_result f.pubFail st2
            job2.id result
          if published.2 then
            { redis := published.1, running := c.running,
              processed_count := c.processed_count + 1 }
          else { c with redis := published.1 }

/-- One iteration of `RedisConsumer.start`'s `while self.running` loop.
(`_process_next_job` never raises, so the loop's own `except`/backoff
branch is unreachable.) -/
def consumer_loop_step (analyze : Document → Except String Json)
    (f : Faults) (now : String) (c : ConsumerState) : ConsumerState :=
  if c.running then process_next_job analyze f now c else c

/-! ## System reachability

States of the broker produced by the pipeline's state-changing entry
points, starting from an empty broker: job submission, a worker
iteration and the admin clear-queue endpoint (the status, health, stats
and root handlers perform only reads). All fault flags, timestamps, job
ids, documents and Analyzer behaviours are quantified. -/

/-- Broker states reachable through the pipeline's operations. -/
inductive Reachable : RedisState → Prop
  | init : Reachable RedisState.empty
  | submit (pf uf : Bool) (jid now : String) (doc : Document)
      {st : RedisState} :
      Reachable st → Reachable (App.submit_job pf uf jid now doc st).2
  | worker (analyze : Document → Except String Json) (f : Faults)
      (now : String) (running : Bool) (count : Nat) {st : RedisState} :
      Reachable st →
      Reachable (process_next_job analyze f now ⟨st, running, count⟩).redis
  | clearQueue (fail : Bool) {st : RedisState} :
      Reachable st → Reachable (App.clear_processing_queue fail st).2

/-- The per-record invariant on stored status records: `progress = 100`
iff the stored status is `"completed"`, and an `"error"` key is present
iff the stored status is `"failed"`. -/
def recordInv (r : Json) : Prop :=
  (r.getField "progress" = some (.num 100) ↔
     r.getField "status" = some (.str "completed")) ∧
  ((r.getField "error").isSome ↔ r.getField "status" = some (.str "failed"))

instance (r : Json) : Decidable (recordInv r) := by
  unfold recordInv
  infer_instance

/-- Every record in the job store satisfies `recordInv`. -/
def storeInv (st : RedisState) : Prop :=
  ∀ p ∈ st.kv, recordInv p.2

/-- Every key in the job store lives in the `"nlp:job:"` namespace. -/
def kvJobKeysOnly (st : RedisState) : Prop :=
  ∀ p ∈ st.kv, ∃ i, p.1 = RKey.jobKey i

/-- The queue entry that `submit_job` pushes for document `doc` under
job id `jid`. -/
def queuedJob (jid : String) (doc : Document) : RVal :=
  .job { id := jid, document_id := doc.id, status := .pending,
         error_message := none, progress := 0, metadata_document := some doc }

/-- Submission of a batch of (job id, document) pairs in order, with no
intervening pops (`app.py:submit_job` folded left-to-right, no faults). -/
def submitMany (jobs : List (String × Document)) (now : String)
    (st : RedisState) : RedisState :=
  jobs.foldl (fun s jd => (App.submit_job false false jd.1 now jd.2 s).2) st

/-- A concrete well-formed job used in success-path scenarios. -/
def jobSix : ProcessingJob :=
  ⟨"j6", "d6", .pending, none, 0, some ⟨"d6", "text"⟩⟩

/-- A broker holding exactly `jobSix` on the work queue. -/
def stSix : RedisState :=
  (RedisState.empty.lpush Config.NLP_QUEUE (.job jobSix)).1


/-! ## Association-list lemmas -/

theorem alistGet_set_self {α : Type} [DecidableEq α] {β : Type}
    (l : List (α × β)) (k : α) (v : β) : alistGet (alistSet l k v) k = some v := by
  simp [alistSet, alistGet]

theorem alistDel_cons_of_eq {α : Type} [DecidableEq α] {β : Type}
    (rest : List (α × β)) {a k : α} (b : β) (h : a = k) :
    alistDel ((a, b) :: rest) k = alistDel rest k := by
  simp [alistDel, List.filter_cons, h]

theorem alistDel_cons_of_ne {α : Type} [DecidableEq α] {β : Type}
    (rest : List (α × β)) {a k : α} (b : β) (h : ¬a = k) :
    alistDel ((a, b) :: rest) k = (a, b) :: alistDel rest k := by
  simp [alistDel, List.filter_cons, h]

theorem alistGet_del_self {α : Type} [DecidableEq α] {β : Type}
    (l : List (α × β)) (k : α) : alistGet (alistDel l k) k = none := by
  induction l with
  | nil => rfl
  | cons p rest ih =>
      obtain ⟨a, b⟩ := p
      by_cases hp : a = k
      · rw [alistDel_cons_of_eq rest b hp]
        exact ih
      · rw [alistDel_cons_of_ne rest b hp]
        simpa [alistGet, hp] using ih

theorem alistGet_del_ne {α : Type} [DecidableEq α] {β : Type}
    (l : List (α × β)) (k k' : α) (h : k ≠ k') :
    alistGet (alistDel l k) k' = alistGet l k' := by
  induction l with
  | nil => rfl
  | cons p rest ih =>
      obtain ⟨a, b⟩ := p
      by_cases hp : a = k
      · rw [alistDel_cons_of_eq rest b hp, ih]
        subst hp
        simp [alistGet, h]
      · rw [alistDel_cons_of_ne rest b hp]
        by_cases ha : a = k'
        · simp [alistGet, ha]
        · simp [alistGet, ha, ih]

theorem alistGet_set_ne {α : Type} [DecidableEq α] {β : Type}
    (l : List (α × β)) (k k' : α) (v : β) (h : k ≠ k') :
    alistGet (alistSet l k v) k' = alistGet l k' := by
  simp only [alistSet, alistGet, if_neg h]
  exact alistGet_del_ne l k k' h

theorem mem_alistSet {α : Type} [DecidableEq α] {β : Type}
    {l : List (α × β)} {k : α} {v : β} {p : α × β}
    (h : p ∈ alistSet l k v) : p = (k, v) ∨ p ∈ l := by
  rcases List.mem_cons.mp h with h1 | h1
  · exact Or.inl h1
  · exact Or.inr (List.mem_of_mem_filter h1)

theorem mem_alistDel {α : Type} [DecidableEq α] {β : Type}
    {l : List (α × β)} {k : α} {p : α × β}
    (h : p ∈ alistDel l k) : p ∈ l :=
  List.mem_of_mem_filter h

theorem alistDel_eq_self {α : Type} [DecidableEq α] {β : Type}
    {l : List (α × β)} {k : α} (h : ∀ p ∈ l, p.1 ≠ k) :
    alistDel l k = l := by
  simp only [alistDel]
  exact List.filter_eq_self.mpr (fun p hp => by simpa using h p hp)

/-! ## Broker-operation lemmas -/

theorem RedisState.listAt_lpush_self (st : RedisState) (k : RKey) (v : RVal) :
    ((st.lpush k v).1).listAt k = v :: st.listAt k := by
  simp [RedisState.lpush, RedisState.listAt, alistGet_set_self]

theorem RedisState.listAt_lpush_ne (st : RedisState) (k k' : RKey) (v : RVal)
    (h : k ≠ k') : ((st.lpush k v).1).listAt k' = st.listAt k' := by
  simp [RedisState.lpush, RedisState.listAt, alistGet_set_ne _ _ _ _ h]

theorem RedisState.kv_lpush (st : RedisState) (k : RKey) (v : RVal) :
    ((st.lpush k v).1).kv = st.kv := rfl

theorem RedisState.listAt_setex (st : RedisState) (k : RKey) (v : Json)
    (k' : RKey) : (st.setex k v).listAt k' = st.listAt k' := rfl

theorem RedisState.get_setex_self (st : RedisState) (k : RKey) (v : Json) :
    (st.setex k v).get k = some v := by
  simp [RedisState.setex, RedisState.get, alistGet_set_self]

theorem RedisState.get_setex_ne (st : RedisState) (k k' : RKey) (v : Json)
    (h : k ≠ k') : (st.setex k v).get k' = st.get k' := by
  simp [RedisState.setex, RedisState.get, alistGet_set_ne _ _ _ _ h]

theorem RedisState.brpop_empty (st : RedisState) (k : RKey) (t : Nat)
    (h : st.listAt k = []) : st.brpop k t = (none, st) := by
  simp [RedisState.brpop, h]

theorem RedisState.brpop_concat (st : RedisState) (k : RKey) (t : Nat)
    (l : List RVal) (v : RVal) (h : st.listAt k = l ++ [v]) :
    st.brpop k t =
      (some v, { st with lists := alistSet st.lists k l }) := by
  simp [RedisState.brpop, h, List.getLast?_concat]

theorem RedisState.kv_brpop (st : RedisState) (k : RKey) (t : Nat) :
    ((st.brpop k t).2).kv = st.kv := by
  unfold RedisState.brpop
  cases (st.listAt k).getLast? <;> rfl

/-! ## Service-layer lemmas -/

theorem RedisService.kv_get_processing_job (b : Bool) (st : RedisState) :
    ((RedisService.get_processing_job b st).2).kv = st.kv := by
  unfold RedisService.get_processing_job
  cases b
  · exact RedisState.kv_brpop st Config.NLP_QUEUE 30
  · rfl

theorem RedisService.kv_publish_job_result (b : Bool) (st : RedisState)
    (jid : String) (r : Json) :
    ((RedisService.publish_job_result b st jid r).1).kv = st.kv := by
  unfold RedisService.publish_job_result
  cases b <;> rfl

theorem RedisService.listAt_update_job_status (b : Bool) (st : RedisState)
    (jid status : String) (p : Nat) (e : Option String) (k : RKey) :
    (RedisService.update_job_status b st jid status p e).listAt k = st.listAt k := by
  unfold RedisService.update_job_status
  cases b <;> rfl

/-! ## Job-store invariants -/

theorem recordInv_pending : recordInv (statusRecord "pending" 0 none) := by decide

theorem recordInv_processing : recordInv (statusRecord "processing" 0 none) := by
  decide

theorem recordInv_completed : recordInv (statusRecord "completed" 100 none) := by
  decide

theorem recordInv_failed (m : String) (hm : m ≠ "") :
    recordInv (statusRecord "failed" 0 (some m)) := by
  simp [recordInv, statusRecord, Json.getField, hm]

/-- The worker's error messages are non-empty: they all have the shape
`"Failed to process document: " ++ str(e)`. -/
theorem workerErrorMsg_ne_empty (e : String) :
    "Failed to process document: " ++ e ≠ "" := by
  intro h
  have h2 := congrArg String.length h
  simp [String.length_append] at h2
  exact absurd h2.1 (by decide)

theorem storeInv_of_kv_eq {st st' : RedisState} (h : st'.kv = st.kv)
    (hinv : storeInv st) : storeInv st' := by
  intro p hp
  exact hinv p (h ▸ hp)

theorem kvJobKeysOnly_of_kv_eq {st st' : RedisState} (h : st'.kv = st.kv)
    (hinv : kvJobKeysOnly st) : kvJobKeysOnly st' := by
  intro p hp
  exact hinv p (h ▸ hp)

theorem storeInv_setex {st : RedisState} {k : RKey} {v : Json}
    (hinv : storeInv st) (hv : recordInv v) : storeInv (st.setex k v) := by
  intro p hp
  rcases mem_alistSet hp with h1 | h1
  · rw [h1]
    exact hv
  · exact hinv p h1

theorem kvJobKeysOnly_setex {st : RedisState} {i : String} {v : Json}
    (hinv : kvJobKeysOnly st) : kvJobKeysOnly (st.setex (.jobKey i) v) := by
  intro p hp
  rcases mem_alistSet hp with h1 | h1
  · exact ⟨i, by rw [h1]⟩
  · exact hinv p h1

theorem storeInv_update_job_status {st : RedisState} (b : Bool)
    (jid status : String) (p : Nat) (e : Option String)
    (hinv : storeInv st) (hv : recordInv (statusRecord status p e)) :
    storeInv (RedisService.update_job_status b st jid status p e) := by
  unfold RedisService.update_job_status
  cases b
  · exact storeInv_setex hinv hv
  · exact hinv

theorem kvJobKeysOnly_update_job_status {st : RedisState} (b : Bool)
    (jid status : String) (p : Nat) (e : Option String)
    (hinv : kvJobKeysOnly st) :
    kvJobKeysOnly (RedisService.update_job_status b st jid status p e) := by
  unfold RedisService.update_job_status
  cases b
  · exact kvJobKeysOnly_setex hinv
  · exact hinv

theorem storeInv_workerFailJob {st : RedisState} (f : Faults) (now : String)
    (job : ProcessingJob) (m : String) (c : ConsumerState)
    (hm : m ≠ "") (hinv : storeInv st) :
    storeInv (workerFailJob f now st job m c).redis := by
  unfold workerFailJob
  apply storeInv_of_kv_eq (RedisService.kv_publish_job_result _ _ _ _)
  exact storeInv_update_job_status _ _ _ _ _ hinv (recordInv_failed m hm)

theorem kvJobKeysOnly_workerFailJob {st : RedisState} (f : Faults)
    (now : String) (job : ProcessingJob) (m : String) (c : ConsumerState)
    (hinv : kvJobKeysOnly st) :
    kvJobKeysOnly (workerFailJob f now st job m c).redis := by
  unfold workerFailJob
  apply kvJobKeysOnly_of_kv_eq (RedisService.kv_publish_job_result _ _ _ _)
  exact kvJobKeysOnly_update_job_status _ _ _ _ _ hinv

theorem storeInv_process_next_job (analyze : Document → Except String Json)
    (f : Faults) (now : String) (c : ConsumerState) (hinv : storeInv c.redis) :
    storeInv (process_next_job analyze f now c).redis := by
  have hpop : storeInv (RedisService.get_processing_job f.popFail c.redis).2 :=
    storeInv_of_kv_eq (RedisService.kv_get_processing_job _ _) hinv
  have hproc : ∀ jid, storeInv (RedisService.update_job_status f.updFail
      (RedisService.get_processing_job f.popFail c.redis).2 jid
      JobStatus.processing.value 0 none) :=
    fun jid => storeInv_update_job_status _ _ _ _ _ hpop recordInv_processing
  unfold process_next_job
  dsimp only
  split
  · exact hpop
  · split
    · exact hpop
    · split
      · exact storeInv_workerFailJob _ _ _ _ _ (by decide) (hproc _)
      · split
        · exact storeInv_workerFailJob _ _ _ _ _
            (workerErrorMsg_ne_empty _) (hproc _)
        · split
          · apply storeInv_of_kv_eq (RedisService.kv_publish_job_result _ _ _ _)
            exact storeInv_update_job_status _ _ _ _ _ (hproc _) recordInv_completed
          · apply storeInv_of_kv_eq (RedisService.kv_publish_job_result _ _ _ _)
            exact storeInv_update_job_status _ _ _ _ _ (hproc _) recordInv_completed

theorem kvJobKeysOnly_process_next_job (analyze : Document → Except String Json)
    (f : Faults) (now : String) (c : ConsumerState)
    (hinv : kvJobKeysOnly c.redis) :
    kvJobKeysOnly (process_next_job analyze f now c).redis := by
  have hpop : kvJobKeysOnly (RedisService.get_processing_job f.popFail c.redis).2 :=
    kvJobKeysOnly_of_kv_eq (RedisService.kv_get_processing_job _ _) hinv
  have hproc : ∀ jid, kvJobKeysOnly (RedisService.update_job_status f.updFail
      (RedisService.get_processing_job f.popFail c.redis).2 jid
      JobStatus.processing.value 0 none) :=
    fun jid => kvJobKeysOnly_update_job_status _ _ _ _ _ hpop
  unfold process_next_job
  dsimp only
  split
  · exact hpop
  · split
    · exact hpop
    · split
      · exact kvJobKeysOnly_workerFailJob _ _ _ _ _ (hproc _)
      · split
        · exact kvJobKeysOnly_workerFailJob _ _ _ _ _ (hproc _)
        · split
          · apply kvJobKeysOnly_of_kv_eq (RedisService.kv_publish_job_result _ _ _ _)
            exact kvJobKeysOnly_update_job_status _ _ _ _ _ (hproc _)
          · apply kvJobKeysOnly_of_kv_eq (RedisService.kv_publish_job_result _ _ _ _)
            exact kvJobKeysOnly_update_job_status _ _ _ _ _ (hproc _)

theorem storeInv_submit_job (pf uf : Bool) (jid now : String) (doc : Document)
    (st : RedisState) (hinv : storeInv st) :
    storeInv (App.submit_job pf uf jid now doc st).2 := by
  unfold App.submit_job
  cases pf
  · exact storeInv_update_job_status _ _ _ _ _
      (storeInv_of_kv_eq (RedisState.kv_lpush _ _ _) hinv) recordInv_pending
  · exact hinv

theorem kvJobKeysOnly_submit_job (pf uf : Bool) (jid now : String)
    (doc : Document) (st : RedisState) (hinv : kvJobKeysOnly st) :
    kvJobKeysOnly (App.submit_job pf uf jid now doc st).2 := by
  unfold App.submit_job
  cases pf
  · exact kvJobKeysOnly_update_job_status _ _ _ _ _
      (kvJobKeysOnly_of_kv_eq (RedisState.kv_lpush _ _ _) hinv)
  · exact hinv

theorem storeInv_clear_processing_queue (fail : Bool) (st : RedisState)
    (hinv : storeInv st) : storeInv (App.clear_processing_queue fail st).2 := by
  unfold App.clear_processing_queue RedisService.clear_queue
  cases fail
  · intro p hp
    exact hinv p (mem_alistDel hp)
  · exact hinv

theorem kvJobKeysOnly_clear_processing_queue (fail : Bool) (st : RedisState)
    (hinv : kvJobKeysOnly st) :
    kvJobKeysOnly (App.clear_processing_queue fail st).2 := by
  unfold App.clear_processing_queue RedisService.clear_queue
  cases fail
  · intro p hp
    exact hinv p (mem_alistDel hp)
  · exact hinv

/-- Invariant: in every reachable broker state, all stored job records
satisfy `recordInv`. -/
theorem reachable_storeInv {st : RedisState} (h : Reachable st) : storeInv st := by
  induction h with
  | init => intro p hp; simp [RedisState.empty] at hp
  | submit pf uf jid now doc _ ih => exact storeInv_submit_job _ _ _ _ _ _ ih
  | worker analyze f now running count _ ih =>
      exact storeInv_process_next_job analyze f now _ ih
  | clearQueue fail _ ih => exact storeInv_clear_processing_queue _ _ ih

/-- Invariant: in every reachable broker state, all stored keys are
per-job status keys (`"nlp:job:" ++ id`). -/
theorem reachable_kvJobKeysOnly {st : RedisState} (h : Reachable st) :
    kvJobKeysOnly st := by
  induction h with
  | init => intro p hp; simp [RedisState.empty] at hp
  | submit pf uf jid now doc _ ih => exact kvJobKeysOnly_submit_job _ _ _ _ _ _ ih
  | worker analyze f now running count _ ih =>
      exact kvJobKeysOnly_process_next_job analyze f now _ ih
  | clearQueue fail _ ih => exact kvJobKeysOnly_clear_processing_queue _ _ ih

/-! ## Run-equation lemmas -/

theorem submit_job_push_fail (uf : Bool) (jid now : String) (doc : Document)
    (st : RedisState) :
    App.submit_job true uf jid now doc st
      = (.httpError 500 "Job submission failed", st) := rfl

theorem submit_job_listAt (uf : Bool) (jid now : String) (doc : Document)
    (st : RedisState) :
    (App.submit_job false uf jid now doc st).2.listAt Config.NLP_QUEUE
      = queuedJob jid doc :: st.listAt Config.NLP_QUEUE := by
  show (RedisService.update_job_status uf _ _ _ _ _).listAt _ = _
  rw [RedisService.listAt_update_job_status]
  exact RedisState.listAt_lpush_self st Config.NLP_QUEUE (queuedJob jid doc)

theorem get_processing_job_concat (st : RedisState) (l : List RVal) (v : RVal)
    (h : st.listAt Config.NLP_QUEUE = l ++ [v]) :
    RedisService.get_processing_job false st
      = (some v, { st with lists := alistSet st.lists Config.NLP_QUEUE l }) := by
  unfold RedisService.get_processing_job
  simpa using RedisState.brpop_concat st Config.NLP_QUEUE 30 l v h

theorem get_processing_job_empty (st : RedisState)
    (h : st.listAt Config.NLP_QUEUE = []) :
    RedisService.get_processing_job false st = (none, st) := by
  unfold RedisService.get_processing_job
  simpa using RedisState.brpop_empty st Config.NLP_QUEUE 30 h

theorem update_job_status_false (st : RedisState) (jid status : String)
    (p : Nat) (e : Option String) :
    RedisService.update_job_status false st jid status p e
      = st.setex (.jobKey jid) (statusRecord status p e) := rfl

theorem publish_job_result_false (st : RedisState) (jid : String) (r : Json) :
    RedisService.publish_job_result false st jid r
      = ((st.lpush Config.NLP_RESULTS_QUEUE
            (.msg (RedisService.publishedMessage jid r))).1,
         true) := rfl

theorem publish_job_result_true (st : RedisState) (jid : String) (r : Json) :
    RedisService.publish_job_result true st jid r = (st, false) := rfl

theorem RedisState.get_lpush (st : RedisState) (k : RKey) (v : RVal) (k' : RKey) :
    ((st.lpush k v).1).get k' = st.get k' := rfl

/-! ## Claim C1 — queue ordering -/

theorem submitMany_listAt (jobs : List (String × Document)) (now : String)
    (st : RedisState) :
    (submitMany jobs now st).listAt Config.NLP_QUEUE
      = (jobs.map (fun jd => queuedJob jd.1 jd.2)).reverse
          ++ st.listAt Config.NLP_QUEUE := by
  induction jobs generalizing st with
  | nil => simp [submitMany]
  | cons j rest ih =>
      show (submitMany rest now
        (App.submit_job false false j.1 now j.2 st).2).listAt Config.NLP_QUEUE = _
      rw [ih, submit_job_listAt]
      simp

/-- C1: the claim says submit's push and the worker's pop act on the
same end of the broker list, giving LIFO order. False: `submit_job`
uses LPUSH (left end, app.py line 188) while the worker pops with BRPOP
(right end, redis_service.py line 58). Submitting j1 then j2 onto an
empty queue and popping returns j1, the OLDEST job — not the
most-recently-submitted j2. -/
theorem C1_queue_order_counterexample :
    (RedisService.get_processing_job false
        (submitMany [("j1", ⟨"d1", "first"⟩), ("j2", ⟨"d2", "second"⟩)]
          "t0" RedisState.empty)).1
      = some (queuedJob "j1" ⟨"d1", "first"⟩)
    ∧ queuedJob "j1" ⟨"d1", "first"⟩ ≠ queuedJob "j2" ⟨"d2", "second"⟩ := by
  decide

/-- C1 (amended): the submit push (LPUSH, left end) and the worker pop
(BRPOP, right end) are applied to OPPOSITE ends of the broker list, so
the queue has FIFO semantics — for every sequence of submitted jobs with
no intervening pops, the EARLIEST-submitted job is the one returned by
the next pop. -/
theorem C1_queue_order_fifo (j : String × Document)
    (rest : List (String × Document)) (now : String) (st : RedisState)
    (h : st.listAt Config.NLP_QUEUE = []) :
    (RedisService.get_processing_job false (submitMany (j :: rest) now st)).1
      = some (queuedJob j.1 j.2) := by
  have hq : (submitMany (j :: rest) now st).listAt Config.NLP_QUEUE
      = (rest.map (fun jd => queuedJob jd.1 jd.2)).reverse
          ++ [queuedJob j.1 j.2] := by
    rw [submitMany_listAt, h, List.append_nil]
    simp
  rw [get_processing_job_concat _ _ _ hq]

/-- C1 amended-claim witness: two concrete submissions, pop returns the
first. -/
theorem C1_queue_order_fifo_witness :
    (RedisService.get_processing_job false
        (submitMany [("j1", ⟨"d1", "first"⟩), ("j2", ⟨"d2", "second"⟩)]
          "t0" RedisState.empty)).1
      = some (queuedJob "j1" ⟨"d1", "first"⟩) :=
  C1_queue_order_fifo ("j1", ⟨"d1", "first"⟩) [("j2", ⟨"d2", "second"⟩)]
    "t0" RedisState.empty (by decide)

/-! ## Claim C2 — stored-record invariant -/

/-- C2: in every broker state reachable through submission, worker
iterations and the admin clear operation, every job record stored in the
JobStore satisfies: `progress = 100` iff `status = "completed"`, and an
error message is present iff `status = "failed"`. -/
theorem C2_stored_record_invariant {st : RedisState} (h : Reachable st) :
    ∀ p ∈ st.kv,
      (p.2.getField "progress" = some (.num 100) ↔
        p.2.getField "status" = some (.str "completed")) ∧
      ((p.2.getField "error").isSome ↔
        p.2.getField "status" = some (.str "failed")) :=
  fun p hp => reachable_storeInv h p hp

/-- C2 witness: the record stored by one concrete submission. -/
theorem C2_stored_record_invariant_witness :
    ((statusRecord "pending" 0 none).getField "progress" = some (.num 100) ↔
      (statusRecord "pending" 0 none).getField "status" = some (.str "completed")) ∧
    (((statusRecord "pending" 0 none).getField "error").isSome ↔
      (statusRecord "pending" 0 none).getField "status" = some (.str "failed")) :=
  C2_stored_record_invariant
    (Reachable.submit false false "j1" "t0" ⟨"d1", "first"⟩ Reachable.init)
    (RKey.jobKey "j1", statusRecord "pending" 0 none) (by decide)

/-! ## Claim C3 — submission atomicity -/

/-- C3: the claim says every submission during which a broker operation
fails returns a 500 and leaves no job record and no queue entry. False:
when the LPUSH succeeds and the subsequent status-record SETEX fails,
`update_job_status` swallows the exception (redis_service.py lines
91–92), so the submission reports success (HTTP 200 body), the pushed
queue entry survives, and no job record exists. -/
theorem C3_submit_atomicity_counterexample :
    (App.submit_job false true "j1" "t0" ⟨"d1", "first"⟩ RedisState.empty).1
      = .ok (.field "job_id" (.str "j1")
          (.field "document_id" (.str "d1")
            (.field "status" (.str "pending")
              (.field "submitted_at" (.str "t0")
                (.field "queue_position" (.num 1) .objNil))))) ∧
    (App.submit_job false true "j1" "t0" ⟨"d1", "first"⟩ RedisState.empty).2.listAt
        Config.NLP_QUEUE = [queuedJob "j1" ⟨"d1", "first"⟩] ∧
    (App.submit_job false true "j1" "t0" ⟨"d1", "first"⟩ RedisState.empty).2.get
        (.jobKey "j1") = none := by
  decide

/-- C3 (amended): a failure of the initial queue push surfaces as a
500-class error and leaves the broker completely unchanged (no job
record, no queue entry); but a failure of the subsequent status-record
write is swallowed — the submission still reports success, the queue
entry survives, and the job store is left without a record. -/
theorem C3_submit_atomicity (uf : Bool) (jid now : String) (doc : Document)
    (st : RedisState) :
    App.submit_job true uf jid now doc st
        = (.httpError 500 "Job submission failed", st) ∧
    (App.submit_job false true jid now doc st).2.kv = st.kv ∧
    (App.submit_job false true jid now doc st).2.listAt Config.NLP_QUEUE
        = queuedJob jid doc :: st.listAt Config.NLP_QUEUE ∧
    (App.submit_job false true jid now doc st).1
        = .ok (.field "job_id" (.str jid)
            (.field "document_id" (.str doc.id)
              (.field "status" (.str "pending")
                (.field "submitted_at" (.str now)
                  (.field "queue_position"
                    (.num ((st.listAt Config.NLP_QUEUE).length + 1)) .objNil))))) :=
  ⟨rfl, rfl, submit_job_listAt true jid now doc st, rfl⟩

theorem RedisState.listAt_withlists_self (st : RedisState) (k : RKey)
    (l : List RVal) :
    ({ st with lists := alistSet st.lists k l } : RedisState).listAt k = l := by
  simp [RedisState.listAt, alistGet_set_self]

theorem RedisState.listAt_withlists_ne (st : RedisState) (k k' : RKey)
    (l : List RVal) (h : k ≠ k') :
    ({ st with lists := alistSet st.lists k l } : RedisState).listAt k'
      = st.listAt k' := by
  simp [RedisState.listAt, alistGet_set_ne _ _ _ _ h]

theorem RedisState.get_withlists (st : RedisState) (k : RKey) (l : List RVal)
    (k' : RKey) :
    ({ st with lists := alistSet st.lists k l } : RedisState).get k'
      = st.get k' := rfl

/-! ## Claim C5 — pop timeout on an empty queue -/

/-- C5: the blocking pop (BRPOP, 30-second bound) on an empty queue
returns `none` rather than raising (the service additionally catches any
client exception and returns `None`), and a worker iteration on an empty
queue leaves the consumer state — broker view, `running` flag and
processed counter — completely unchanged: a normal idle condition, not
an error. -/
theorem C5_pop_timeout (analyze : Document → Except String Json)
    (now : String) (st : RedisState) (running : Bool) (count : Nat)
    (h : st.listAt Config.NLP_QUEUE = []) :
    (RedisService.get_processing_job false st).1 = none ∧
    process_next_job analyze noFaults now ⟨st, running, count⟩
      = ⟨st, running, count⟩ := by
  have hpop := get_processing_job_empty st h
  refine ⟨by rw [hpop], ?_⟩
  unfold process_next_job
  dsimp only [noFaults]
  rw [hpop]

/-- C5 witness: an empty broker. -/
theorem C5_pop_timeout_witness :
    (RedisService.get_processing_job false RedisState.empty).1 = none ∧
    process_next_job (fun _ => .ok .objNil) noFaults "t0"
        ⟨RedisState.empty, true, 0⟩
      = ⟨RedisState.empty, true, 0⟩ :=
  C5_pop_timeout (fun _ => .ok .objNil) "t0" RedisState.empty true 0 (by decide)

/-! ## Claim C4 — missing embedded document -/

/-- C4: when the popped job's metadata carries no embedded document, the
worker stores a FAILED record for that job with the non-empty message
"Failed to process document: No document data in job", publishes a
failure result to the results channel, removes the job from the work
queue, and the iteration returns normally with the `running` flag and
processed counter untouched — the error never escalates to the loop
(`_process_next_job` is total: its outermost `except` catches
everything). -/
theorem C4_missing_document (analyze : Document → Except String Json)
    (now : String) (st : RedisState) (running : Bool) (count : Nat)
    (l : List RVal) (j : ProcessingJob)
    (hq : st.listAt Config.NLP_QUEUE = l ++ [.job j])
    (hdoc : j.metadata_document = none) :
    (process_next_job analyze noFaults now ⟨st, running, count⟩).redis.get
        (.jobKey j.id)
      = some (statusRecord "failed" 0
          (some "Failed to process document: No document data in job")) ∧
    "Failed to process document: No document data in job" ≠ "" ∧
    (process_next_job analyze noFaults now ⟨st, running, count⟩).redis.listAt
        Config.NLP_RESULTS_QUEUE
      = .msg (RedisService.publishedMessage j.id
            (failureEnvelope j.id j.document_id
              "Failed to process document: No document data in job" now))
          :: st.listAt Config.NLP_RESULTS_QUEUE ∧
    (process_next_job analyze noFaults now ⟨st, running, count⟩).redis.listAt
        Config.NLP_QUEUE = l ∧
    (process_next_job analyze noFaults now ⟨st, running, count⟩).running
      = running ∧
    (process_next_job analyze noFaults now ⟨st, running, count⟩).processed_count
      = count := by
  have hpop := get_processing_job_concat st l (.job j) hq
  have hfinal : process_next_job analyze noFaults now ⟨st, running, count⟩
      = ⟨(((({ st with lists := alistSet st.lists Config.NLP_QUEUE l } :
              RedisState).setex
              (.jobKey j.id) (statusRecord "processing" 0 none)).setex
              (.jobKey j.id)
              (statusRecord "failed" 0
                (some "Failed to process document: No document data in job"))).lpush
              Config.NLP_RESULTS_QUEUE
              (.msg (RedisService.publishedMessage j.id
                (failureEnvelope j.id j.document_id
                  "Failed to process document: No document data in job" now)))).1,
          running, count⟩ := by
    simp only [process_next_job, noFaults, hpop, RVal.toJob,
      ProcessingJob.start_processing, hdoc, workerFailJob,
      ProcessingJob.fail_processing, update_job_status_false,
      publish_job_result_false, JobStatus.value]
  rw [hfinal]
  refine ⟨?_, by decide, ?_, ?_, rfl, rfl⟩
  · rw [RedisState.get_lpush, RedisState.get_setex_self]
  · rw [RedisState.listAt_lpush_self, RedisState.listAt_setex,
      RedisState.listAt_setex,
      RedisState.listAt_withlists_ne _ _ _ _ (by decide)]
  · rw [RedisState.listAt_lpush_ne _ _ _ _ (by decide),
      RedisState.listAt_setex, RedisState.listAt_setex,
      RedisState.listAt_withlists_self]

/-- C4 witness: a concrete job without an embedded document. -/
theorem C4_missing_document_witness :
    (process_next_job (fun _ => .ok .objNil) noFaults "t4"
        ⟨(RedisState.empty.lpush Config.NLP_QUEUE
            (.job ⟨"j4", "d4", .pending, none, 0, none⟩)).1, true, 5⟩).redis.get
        (.jobKey "j4")
      = some (statusRecord "failed" 0
          (some "Failed to process document: No document data in job")) :=
  (C4_missing_document (fun _ => .ok .objNil) "t4"
    (RedisState.empty.lpush Config.NLP_QUEUE
      (.job ⟨"j4", "d4", .pending, none, 0, none⟩)).1 true 5 []
    ⟨"j4", "d4", .pending, none, 0, none⟩ (by decide) (by decide)).1

/-! ## Success-path run equations -/

theorem process_next_job_success_eq (analyze : Document → Except String Json)
    (now : String) (st : RedisState) (running : Bool) (count : Nat)
    (l : List RVal) (j : ProcessingJob) (d : Document) (a : Json)
    (hq : st.listAt Config.NLP_QUEUE = l ++ [.job j])
    (hdoc : j.metadata_document = some d)
    (han : analyze d = .ok a) :
    process_next_job analyze noFaults now ⟨st, running, count⟩
      = ⟨(((({ st with lists := alistSet st.lists Config.NLP_QUEUE l } :
              RedisState).setex
              (.jobKey j.id) (statusRecord "processing" 0 none)).setex
              (.jobKey j.id) (statusRecord "completed" 100 none)).lpush
              Config.NLP_RESULTS_QUEUE
              (.msg (RedisService.publishedMessage j.id
                (successEnvelope j.id d.id
                  (processedDocumentJson d a now) now)))).1,
          running, count + 1⟩ := by
  have hpop := get_processing_job_concat st l (.job j) hq
  simp only [process_next_job, noFaults, hpop, RVal.toJob,
    ProcessingJob.start_processing, hdoc, han,
    ProcessingJob.complete_processing, update_job_status_false,
    publish_job_result_false, JobStatus.value, if_true]

theorem process_next_job_success_pubfail_eq
    (analyze : Document → Except String Json)
    (now : String) (st : RedisState) (running : Bool) (count : Nat)
    (l : List RVal) (j : ProcessingJob) (d : Document) (a : Json)
    (hq : st.listAt Config.NLP_QUEUE = l ++ [.job j])
    (hdoc : j.metadata_document = some d)
    (han : analyze d = .ok a) :
    process_next_job analyze ⟨false, false, true⟩ now ⟨st, running, count⟩
      = ⟨((({ st with lists := alistSet st.lists Config.NLP_QUEUE l } :
              RedisState).setex
              (.jobKey j.id) (statusRecord "processing" 0 none)).setex
              (.jobKey j.id) (statusRecord "completed" 100 none)),
          running, count⟩ := by
  have hpop := get_processing_job_concat st l (.job j) hq
  simp only [process_next_job, hpop, RVal.toJob,
    ProcessingJob.start_processing, hdoc, han,
    ProcessingJob.complete_processing, update_job_status_false,
    publish_job_result_true, JobStatus.value, Bool.false_eq_true, if_false]

/-! ## Claim C6 — result publication shape -/

/-- C6: the claim says the message appended to the results channel for a
completed job is the envelope `{job_id, document_id, processed_document,
status, processed_at}`. False: the worker builds that envelope (lines
90–96) but `publish_job_result` wraps it (lines 37–41), so the message
actually appended is `{"job_id", "result": envelope, "timestamp"}` — it
differs from the envelope, carries the envelope under its `"result"`
key, and has no top-level `"document_id"` key. -/
theorem C6_result_publication_counterexample :
    (process_next_job (fun _ => .ok .objNil) noFaults "t6"
        ⟨stSix, true, 0⟩).redis.listAt Config.NLP_RESULTS_QUEUE
      = [.msg (RedisService.publishedMessage "j6"
          (successEnvelope "j6" "d6"
            (processedDocumentJson ⟨"d6", "text"⟩ .objNil "t6") "t6"))] ∧
    RedisService.publishedMessage "j6"
        (successEnvelope "j6" "d6"
          (processedDocumentJson ⟨"d6", "text"⟩ .objNil "t6") "t6")
      ≠ successEnvelope "j6" "d6"
          (processedDocumentJson ⟨"d6", "text"⟩ .objNil "t6") "t6" ∧
    (RedisService.publishedMessage "j6"
        (successEnvelope "j6" "d6"
          (processedDocumentJson ⟨"d6", "text"⟩ .objNil "t6") "t6")).getField
        "result"
      = some (successEnvelope "j6" "d6"
          (processedDocumentJson ⟨"d6", "text"⟩ .objNil "t6") "t6") ∧
    (RedisService.publishedMessage "j6"
        (successEnvelope "j6" "d6"
          (processedDocumentJson ⟨"d6", "text"⟩ .objNil "t6") "t6")).getField
        "document_id"
      = none := by
  decide

/-- C6 (amended): for every job the worker completes successfully, the
worker builds the envelope `{job_id, document_id, processed_document,
status: "completed", processed_at}`, and the message appended to the
results channel — a broker list distinct from the work queue — is the
wrapper `{"job_id", "result": envelope, "timestamp":
envelope["processed_at"]}` around that envelope. -/
theorem C6_result_publication (analyze : Document → Except String Json)
    (now : String) (st : RedisState) (running : Bool) (count : Nat)
    (l : List RVal) (j : ProcessingJob) (d : Document) (a : Json)
    (hq : st.listAt Config.NLP_QUEUE = l ++ [.job j])
    (hdoc : j.metadata_document = some d)
    (han : analyze d = .ok a) :
    (process_next_job analyze noFaults now ⟨st, running, count⟩).redis.listAt
        Config.NLP_RESULTS_QUEUE
      = .msg (RedisService.publishedMessage j.id
            (successEnvelope j.id d.id (processedDocumentJson d a now) now))
          :: st.listAt Config.NLP_RESULTS_QUEUE ∧
    Config.NLP_RESULTS_QUEUE ≠ Config.NLP_QUEUE := by
  rw [process_next_job_success_eq analyze now st running count l j d a hq hdoc han]
  refine ⟨?_, by decide⟩
  rw [RedisState.listAt_lpush_self, RedisState.listAt_setex,
    RedisState.listAt_setex,
    RedisState.listAt_withlists_ne _ _ _ _ (by decide)]

/-- C6 amended-claim witness: the concrete `jobSix` run. -/
theorem C6_result_publication_witness :
    (process_next_job (fun _ => .ok .objNil) noFaults "t6"
        ⟨stSix, true, 0⟩).redis.listAt Config.NLP_RESULTS_QUEUE
      = .msg (RedisService.publishedMessage "j6"
            (successEnvelope "j6" "d6"
              (processedDocumentJson ⟨"d6", "text"⟩ .objNil "t6") "t6"))
          :: stSix.listAt Config.NLP_RESULTS_QUEUE ∧
    Config.NLP_RESULTS_QUEUE ≠ Config.NLP_QUEUE :=
  C6_result_publication (fun _ => .ok .objNil) "t6" stSix true 0 [] jobSix
    ⟨"d6", "text"⟩ .objNil (by decide) (by decide) rfl

/-! ## Claim C10 — publish-failure behaviour after completion -/

/-- C10: the worker persists the COMPLETED record (progress 100) before
attempting to publish; an injected publication failure makes
`publish_job_result` return `false` rather than raise, leaves the stored
status COMPLETED (not FAILED), appends nothing to the results channel,
and does not increment the processed counter — while a successful
publication increments it. -/
theorem C10_publish_failure (analyze : Document → Except String Json)
    (now : String) (st : RedisState) (running : Bool) (count : Nat)
    (l : List RVal) (j : ProcessingJob) (d : Document) (a : Json)
    (hq : st.listAt Config.NLP_QUEUE = l ++ [.job j])
    (hdoc : j.metadata_document = some d)
    (han : analyze d = .ok a) :
    (process_next_job analyze ⟨false, false, true⟩ now
        ⟨st, running, count⟩).redis.get (.jobKey j.id)
      = some (statusRecord "completed" 100 none) ∧
    (process_next_job analyze ⟨false, false, true⟩ now
        ⟨st, running, count⟩).redis.listAt Config.NLP_RESULTS_QUEUE
      = st.listAt Config.NLP_RESULTS_QUEUE ∧
    (process_next_job analyze ⟨false, false, true⟩ now
        ⟨st, running, count⟩).processed_count = count ∧
    (∀ (st' : RedisState) (jid : String) (r : Json),
        RedisService.publish_job_result true st' jid r = (st', false)) ∧
    (process_next_job analyze noFaults now
        ⟨st, running, count⟩).processed_count = count + 1 ∧
    (process_next_job analyze noFaults now
        ⟨st, running, count⟩).redis.get (.jobKey j.id)
      = some (statusRecord "completed" 100 none) := by
  rw [process_next_job_success_pubfail_eq analyze now st running count l j d a
      hq hdoc han,
    process_next_job_success_eq analyze now st running count l j d a
      hq hdoc han]
  refine ⟨?_, ?_, rfl, fun st' jid r => rfl, rfl, ?_⟩
  · rw [RedisState.get_setex_self]
  · rw [RedisState.listAt_setex, RedisState.listAt_setex,
      RedisState.listAt_withlists_ne _ _ _ _ (by decide)]
  · rw [RedisState.get_lpush, RedisState.get_setex_self]

/-- C10 witness: the concrete `jobSix` run with an injected publish
failure and without one. -/
theorem C10_publish_failure_witness :
    (process_next_job (fun _ => .ok .objNil) ⟨false, false, true⟩ "t6"
        ⟨stSix, true, 0⟩).redis.get (.jobKey "j6")
      = some (statusRecord "completed" 100 none) ∧
    (process_next_job (fun _ => .ok .objNil) noFaults "t6"
        ⟨stSix, true, 0⟩).processed_count = 0 + 1 :=
  ⟨(C10_publish_failure (fun _ => .ok .objNil) "t6" stSix true 0 [] jobSix
      ⟨"d6", "text"⟩ .objNil (by decide) (by decide) rfl).1,
   (C10_publish_failure (fun _ => .ok .objNil) "t6" stSix true 0 [] jobSix
      ⟨"d6", "text"⟩ .objNil (by decide) (by decide) rfl).2.2.2.2.1⟩

/-! ## Claim C7 — status query -/

/-- C7: the status endpoint returns the stored status record (with the
job id prepended) when one exists, and a 404 "Job not found" when the
key is absent (expired TTL or never-existing id); the handler performs
only a broker GET — it takes no output state — so two consecutive
queries of the same id against the same broker state return identical
responses. -/
theorem C7_status_query (st : RedisState) (jid : String) :
    (∀ (s : String) (p : Nat) (e : Option String),
        st.get (.jobKey jid) = some (statusRecord s p e) →
        App.get_job_status false st jid
          = .ok (.field "job_id" (.str jid) (statusRecord s p e))) ∧
    (st.get (.jobKey jid) = none →
        App.get_job_status false st jid = .httpError 404 "Job not found") ∧
    App.get_job_status false st jid = App.get_job_status false st jid := by
  refine ⟨?_, ?_, rfl⟩
  · intro s p e h
    simp [App.get_job_status, RedisService.get_job_status, h, jsonTruthy,
      statusRecord]
  · intro h
    simp [App.get_job_status, RedisService.get_job_status, h]

/-- C7 witness: one stored record, queried. -/
theorem C7_status_query_witness :
    App.get_job_status false
        (RedisState.empty.setex (.jobKey "j7") (statusRecord "pending" 0 none))
        "j7"
      = .ok (.field "job_id" (.str "j7") (statusRecord "pending" 0 none)) :=
  (C7_status_query
    (RedisState.empty.setex (.jobKey "j7") (statusRecord "pending" 0 none))
    "j7").1 "pending" 0 none (by decide)

/-! ## Claim C8 — clear-queue frame -/

/-- C8: after a successful admin clear-queue, the handler reports
success, the processing queue's length is 0 and a worker pop returns
nothing, while the job store (every per-job status record — the
reachability invariant guarantees all stored keys live in the
`"nlp:job:"` namespace, distinct from the queue key) and the results
channel are unchanged; in particular every status query answers exactly
as before. -/
theorem C8_clear_queue_frame (st : RedisState) (h : Reachable st) :
    (App.clear_processing_queue false st).1
      = .ok (.field "message"
          (.str "Processing queue cleared successfully") .objNil) ∧
    (App.clear_processing_queue false st).2.llen Config.NLP_QUEUE = 0 ∧
    (RedisService.get_processing_job false
        (App.clear_processing_queue false st).2).1 = none ∧
    (App.clear_processing_queue false st).2.kv = st.kv ∧
    (App.clear_processing_queue false st).2.listAt Config.NLP_RESULTS_QUEUE
      = st.listAt Config.NLP_RESULTS_QUEUE ∧
    (∀ jid, App.get_job_status false (App.clear_processing_queue false st).2 jid
      = App.get_job_status false st jid) := by
  have hkv : (App.clear_processing_queue false st).2.kv = st.kv := by
    show alistDel st.kv Config.NLP_QUEUE = st.kv
    apply alistDel_eq_self
    intro p hp
    obtain ⟨i, hi⟩ := reachable_kvJobKeysOnly h p hp
    rw [hi]
    intro hcontra
    exact RKey.noConfusion hcontra
  have hqlen : (App.clear_processing_queue false st).2.listAt Config.NLP_QUEUE
      = [] := by
    show ((st.del Config.NLP_QUEUE).listAt Config.NLP_QUEUE) = []
    simp [RedisState.del, RedisState.listAt, alistGet_del_self]
  refine ⟨rfl, ?_, ?_, hkv, ?_, ?_⟩
  · show ((App.clear_processing_queue false st).2.listAt Config.NLP_QUEUE).length = 0
    rw [hqlen]
    rfl
  · rw [get_processing_job_empty _ hqlen]
  · show ((st.del Config.NLP_QUEUE).listAt Config.NLP_RESULTS_QUEUE) = _
    simp [RedisState.del, RedisState.listAt,
      alistGet_del_ne _ _ _ (by decide : Config.NLP_QUEUE ≠ Config.NLP_RESULTS_QUEUE)]
  · intro jid
    show App.get_job_status false (st.del Config.NLP_QUEUE) jid = _
    unfold App.get_job_status RedisService.get_job_status RedisState.get
    rw [show (st.del Config.NLP_QUEUE).kv = st.kv from hkv]

/-- C8 witness: clearing after one concrete submission. -/
theorem C8_clear_queue_frame_witness :
    (App.clear_processing_queue false
        (App.submit_job false false "j1" "t0" ⟨"d1", "first"⟩
          RedisState.empty).2).2.llen Config.NLP_QUEUE = 0 :=
  (C8_clear_queue_frame _
    (Reachable.submit false false "j1" "t0" ⟨"d1", "first"⟩ Reachable.init)).2.1

/-! ## Claim C9 — broker failure at the status lookup -/

/-- C9: when the broker GET raises during a status lookup, the service's
`get_job_status` swallows the exception and returns `None`
(redis_service.py lines 103–105), so the endpoint answers 404 "Job not
found" — exactly the response for a job id that never existed (here: any
lookup against an empty broker) — and never a 500-class error. -/
theorem C9_status_lookup_error_is_404 (st : RedisState) (jid : String) :
    App.get_job_status true st jid = .httpError 404 "Job not found" ∧
    App.get_job_status true st jid
      = App.get_job_status false RedisState.empty jid :=
  ⟨rfl, rfl⟩

/-- C3 amended-claim witness: a concrete push failure returns 500 and
leaves the broker untouched. -/
theorem C3_submit_atomicity_witness :
    App.submit_job true false "j3" "t3" ⟨"d3", "x"⟩ RedisState.empty
      = (.httpError 500 "Job submission failed", RedisState.empty) :=
  (C3_submit_atomicity false "j3" "t3" ⟨"d3", "x"⟩ RedisState.empty).1

/-- C9 witness: a failing lookup against a concrete broker answers 404,
identically to a lookup for a job that never existed. -/
theorem C9_status_lookup_error_is_404_witness :
    App.get_job_status true RedisState.empty "j9"
      = .httpError 404 "Job not found" ∧
    App.get_job_status true RedisState.empty "j9"
      = App.get_job_status false RedisState.empty "j9" :=
  C9_status_lookup_error_is_404 RedisState.empty "j9"
